import Mathlib

/-
Verification of the tunnel lifecycle manager
(skills/subcode-tunnel/scripts/tunnel.sh) against its design document.

The script is embedded shallowly: the durable state it manipulates (the
per-name record files under the state directory, the per-tunnel routing
config files, the set of live backend processes and active overlay funnel
ports) is an explicit SysState value, and each shell function becomes a
Lean function from inputs, an environment describing the outcomes of the
external commands it shells out to, and a SysState, to a result, a new
SysState and a trace of the externally visible actions it attempted.
-/

set_option maxHeartbeats 1000000

namespace Tunnel

/-- One persisted tunnel record, the JSON object a launcher writes to
STATE_DIR/name.json.  Fields that only some backends write are Options. -/
structure TunnelRecord where
  method : String
  name : String
  local_port : Nat
  url : String
  funnel_port : Option Nat := none
  ts_host : Option String := none
  pid : Option Nat := none
  hostname : Option String := none
  tunnel_name : Option String := none
deriving Repr, DecidableEq

/-- One ingress rule of a cloudflared config file; the catch-all 404 rule
has no hostname. -/
structure IngressRule where
  hostname : Option String
  service : String
deriving Repr, DecidableEq

/-- A cloudflared routing-configuration file
(STATE_DIR/tunnelname-config.yml). -/
structure ConfigYml where
  tunnel : String
  credentials_file : String
  ingress : List IngressRule
deriving Repr, DecidableEq

/-- The durable state the script owns or mutates: record files keyed by
tunnel name, routing config files keyed by tunnel resource name, pids of
live background cloudflared processes, and active overlay funnel ports. -/
structure SysState where
  store : List (String × TunnelRecord)
  configs : List (String × ConfigYml)
  procs : List Nat
  funnels : List Nat
deriving Repr, DecidableEq

/-- Externally visible side-effecting commands the script issues, recorded
as a trace. -/
inductive Action where
  | createTunnel (tunnelName : String)
  | routeDns (tunnelName hostname : String)
  | killPid (pid : Nat)
  | spawn (pid : Nat)
  | funnelOn (funnelPort localPort : Nat)
  | funnelOff (funnelPort : Nat)
  | funnelReset
  | pkillCloudflared
deriving Repr, DecidableEq

/-- Failure modes of the launchers and commands (section 7 taxonomy). -/
inductive TunnelError where
  | NoHostname
  | FunnelFailed
  | DomainMissing
  | CreateFailed
  | NoTunnelId
  | CredentialsMissing
  | LaunchFailed
  | LaunchTimeout
  | NoPortAvailable
  | UnknownMethod
deriving Repr, DecidableEq

/-- Lookup in a directory-of-files modelled as an association list. -/
def assocGet {α : Type} (l : List (String × α)) (k : String) : Option α :=
  (l.find? (fun kv => kv.1 == k)).map (fun kv => kv.2)

/-- Overwrite-or-create a file: at most one entry per key afterwards. -/
def assocSet {α : Type} (l : List (String × α)) (k : String) (v : α) :
    List (String × α) :=
  (k, v) :: l.filter (fun kv => kv.1 != k)

/-- rm -f of one file: drop every entry with this key. -/
def assocDelete {α : Type} (l : List (String × α)) (k : String) :
    List (String × α) :=
  l.filter (fun kv => kv.1 != k)

/-
Port Allocator (find_available_port).  The shell loop

  while [[ port -lt max_port ]]; do
    if ! ss ... | grep -q ":port " && ! lsof -i ":port"; then echo port; fi
    port=port+1
  done

is embedded with the two probes as predicates (true = a listener was
observed on the port) and the loop as fuel recursion, fuel being
max_port - port = 100 at the first iteration.
-/

/-- A port is accepted only when both probes report it free. -/
def portFree (ssBusy lsofBusy : Nat → Bool) (p : Nat) : Bool :=
  !ssBusy p && !lsofBusy p

/-- The scan loop of find_available_port. -/
def findFrom (ssBusy lsofBusy : Nat → Bool) : Nat → Nat → Option Nat
  | _, 0 => none
  | port, fuel + 1 =>
    if portFree ssBusy lsofBusy port then some port
    else findFrom ssBusy lsofBusy (port + 1) fuel

/-- find_available_port: scan the 100 ports base..base+99 in order. -/
def find_available_port (ssBusy lsofBusy : Nat → Bool) (base : Nat) :
    Option Nat :=
  findFrom ssBusy lsofBusy base 100

/-- cmd_find_port: print the port and exit 0, or report NoPortAvailable
and exit 1.  Result is (outcome, exit code). -/
def cmd_find_port (ssBusy lsofBusy : Nat → Bool) (base : Nat) :
    Except TunnelError Nat × Nat :=
  match find_available_port ssBusy lsofBusy base with
  | some p => (Except.ok p, 0)
  | none => (Except.error TunnelError.NoPortAvailable, 1)

/-
Backend launchers.  Each takes an environment describing the outcomes of
the external commands it runs, the port and name, and the current state.
-/

/-- Environment of start_tailscale_funnel: the Tailscale hostname lookup
result (DNSName, none when undeterminable) and whether the sudo funnel
command succeeds. -/
structure TsEnv where
  ts_host : Option String
  funnelCmdOk : Bool
deriving Repr, DecidableEq

/-- start_tailscale_funnel localPort name funnelPort: resolve the Tailscale
hostname, run the single funnel command; on success write the record. -/
def start_tailscale_funnel (env : TsEnv) (local_port : Nat) (name : String)
    (funnel_port : Nat) (s : SysState) :
    Except TunnelError String × SysState × List Action :=
  match env.ts_host with
  | none => (Except.error TunnelError.NoHostname, s, [])
  | some host =>
    if env.funnelCmdOk then
      let url :=
        if funnel_port == 443 then "https://" ++ host
        else "https://" ++ host ++ ":" ++ toString funnel_port
      let rec0 : TunnelRecord :=
        { method := "tailscale", name := name, local_port := local_port,
          url := url, funnel_port := some funnel_port, ts_host := some host }
      (Except.ok url,
       { s with
           funnels := funnel_port :: s.funnels.filter (fun q => q != funnel_port),
           store := assocSet s.store name rec0 },
       [Action.funnelOn funnel_port local_port])
    else
      (Except.error TunnelError.FunnelFailed, s,
       [Action.funnelOn funnel_port local_port])

/-- The quick launcher record written on success. -/
def quickRecord (name : String) (local_port : Nat) (url : String)
    (pid : Nat) : TunnelRecord :=
  { method := "cloudflare_quick", name := name, local_port := local_port,
    url := url, pid := some pid }

/-- The poll loop of start_cloudflare_quick: logUrl i is the result of
grepping the log for a trycloudflare URL at the check after i seconds;
the shell loop checks at waited = 0 .. max_wait-1 and sleeps 1 between
checks. -/
def quickPollFrom (logUrl : Nat → Option String) : Nat → Nat → Option String
  | _, 0 => none
  | waited, fuel + 1 =>
    match logUrl waited with
    | some url => some url
    | none => quickPollFrom logUrl (waited + 1) fuel

/-- start_cloudflare_quick localPort name: spawn cloudflared (pid given by
the environment), poll the log once per second for up to 30 checks; on a
URL, keep the process and write the record; on timeout, kill the spawned
process, write nothing and fail. -/
def start_cloudflare_quick (logUrl : Nat → Option String) (pid : Nat)
    (local_port : Nat) (name : String) (s : SysState) :
    Except TunnelError String × SysState × List Action :=
  match quickPollFrom logUrl 0 30 with
  | some url =>
    (Except.ok url,
     { s with procs := pid :: s.procs,
              store := assocSet s.store name (quickRecord name local_port url pid) },
     [Action.spawn pid])
  | none =>
    (Except.error TunnelError.LaunchTimeout,
     { s with procs := (pid :: s.procs).erase pid },
     [Action.spawn pid, Action.killPid pid])

/-- Environment of start_cloudflare_named: the machine name, the two
environment variables, and the outcomes of the cloudflared commands it
runs. -/
structure NamedEnv where
  machine_name : String
  domain : Option String
  tunnel_name_override : Option String
  tunnelExists : Bool
  createOk : Bool
  tunnelId : Option String
  routeDnsOk : Bool
  credsPresent : Bool
  yqAvailable : Bool
  existingPid : Option Nat
  newPid : Nat
  aliveAfterSettle : Bool
deriving Repr, DecidableEq

/-- Path of the credentials file for a tunnel id (under ~/.cloudflared). -/
def credsPath (tunnel_id : String) : String :=
  tunnel_id ++ ".json"

/-- The ingress rule added for this start. -/
def newIngressRule (hostname : String) (local_port : Nat) : IngressRule :=
  { hostname := some hostname, service := "http://localhost:" ++ toString local_port }

/-- The catch-all rule terminating a fresh config. -/
def catchAll404 : IngressRule :=
  { hostname := none, service := "http_status:404" }

/-- The config-file rewrite step of start_cloudflare_named.  With an
existing file and yq: delete every ingress rule whose hostname equals the
new hostname, then prepend the new rule (the rest, including the 404
catch-all, is preserved).  With an existing file and no yq: the file is
rebuilt from scratch with only the new rule.  With no existing file: a
fresh config with the new rule followed by the 404 catch-all. -/
def rewriteConfig (yqAvailable : Bool) (existing : Option ConfigYml)
    (tunnel_name creds_file hostname : String) (local_port : Nat) : ConfigYml :=
  match existing with
  | some cfg =>
    if yqAvailable then
      { cfg with
          ingress := newIngressRule hostname local_port ::
            cfg.ingress.filter (fun r => r.hostname != some hostname) }
    else
      { tunnel := tunnel_name, credentials_file := creds_file,
        ingress := [newIngressRule hostname local_port] }
  | none =>
    { tunnel := tunnel_name, credentials_file := creds_file,
      ingress := [newIngressRule hostname local_port, catchAll404] }

/-- start_cloudflare_named localPort name: require the domain, ensure the
tunnel resource exists, look up its id, attempt the DNS route (failure
swallowed), require the credentials file, rewrite the config, kill a
pre-existing serving process, spawn against the new config and check it
is still alive after the settle time; only then write the record. -/
def start_cloudflare_named (env : NamedEnv) (local_port : Nat) (name : String)
    (s : SysState) : Except TunnelError String × SysState × List Action :=
  match env.domain with
  | none => (Except.error TunnelError.DomainMissing, s, [])
  | some domain =>
    let tunnel_name := env.tunnel_name_override.getD env.machine_name
    let hostname := name ++ "-" ++ env.machine_name ++ "." ++ domain
    let tr1 : List Action :=
      if env.tunnelExists then [] else [Action.createTunnel tunnel_name]
    if !env.tunnelExists && !env.createOk then
      (Except.error TunnelError.CreateFailed, s, tr1)
    else
      match env.tunnelId with
      | none => (Except.error TunnelError.NoTunnelId, s, tr1)
      | some tunnel_id =>
        let tr2 := tr1 ++ [Action.routeDns tunnel_name hostname]
        let creds_file := credsPath tunnel_id
        if !env.credsPresent then
          (Except.error TunnelError.CredentialsMissing, s, tr2)
        else
          let cfg := rewriteConfig env.yqAvailable
            (assocGet s.configs tunnel_name) tunnel_name creds_file hostname
            local_port
          let s1 : SysState :=
            { s with configs := assocSet s.configs tunnel_name cfg }
          let step2 : SysState × List Action :=
            match env.existingPid with
            | some p => ({ s1 with procs := s1.procs.erase p },
                         tr2 ++ [Action.killPid p])
            | none => (s1, tr2)
          let tr3 := step2.2 ++ [Action.spawn env.newPid]
          if !env.aliveAfterSettle then
            (Except.error TunnelError.LaunchFailed, step2.1, tr3)
          else
            let url := "https://" ++ hostname
            let rec0 : TunnelRecord :=
              { method := "cloudflare_named", name := name,
                local_port := local_port, url := url,
                hostname := some hostname, tunnel_name := some tunnel_name,
                pid := some env.newPid }
            (Except.ok url,
             { step2.1 with
                 procs := env.newPid :: step2.1.procs,
                 store := assocSet step2.1.store name rec0 },
             tr3)

/-
Stopper.
-/

/-- Outcomes of the teardown commands issued by stop_tunnel; both commands
swallow failure with "|| true". -/
structure StopEnv where
  funnelOffOk : Bool
  killOk : Bool
deriving Repr, DecidableEq

/-- stop_tunnel name: a missing record is a warning and exit 0 with no
state change.  Otherwise dispatch teardown on the record method (the
cloudflare_named case only logs: it touches neither the config nor the
process), then delete the record file and report success. -/
def stop_tunnel (env : StopEnv) (name : String) (s : SysState) :
    Nat × SysState × List Action :=
  match assocGet s.store name with
  | none => (0, s, [])
  | some r =>
    let step : SysState × List Action :=
      if r.method == "tailscale" then
        let fp := r.funnel_port.getD 0
        (if env.funnelOffOk then
           { s with funnels := s.funnels.filter (fun q => q != fp) }
         else s,
         [Action.funnelOff fp])
      else if r.method == "cloudflare_quick" then
        let pid := r.pid.getD 0
        (if env.killOk then { s with procs := s.procs.erase pid } else s,
         [Action.killPid pid])
      else if r.method == "cloudflare_named" then
        (s, [])
      else
        (s, [])
    (0, { step.1 with store := assocDelete step.1.store name }, step.2)

/-- stop_all_tunnels: funnel reset, pkill of cloudflared tunnel processes
and removal of every record file, each step with failure swallowed; the
record clearing is a glob rm -f of every .json file and succeeds in the
model, and the command always reports success. -/
def stop_all_tunnels (funnelResetOk pkillOk : Bool) (s : SysState) :
    Nat × SysState × List Action :=
  let s1 : SysState := if funnelResetOk then { s with funnels := [] } else s
  let s2 : SysState := if pkillOk then { s1 with procs := [] } else s1
  (0, { s2 with store := [] }, [Action.funnelReset, Action.pkillCloudflared])

/-
Orchestrator (cmd_start).  The name defaults to app-port; an empty method
means the Detector's recommendation is used; then dispatch on the method
string exactly as the shell case does.  The launcher result is returned
unchanged.
-/

/-- cmd_start: default the name, resolve the method and dispatch. -/
def cmd_start (tsEnv : TsEnv) (nEnv : NamedEnv) (logUrl : Nat → Option String)
    (qpid : Nat) (recommended : String) (method0 : String) (port : Nat)
    (name0 : Option String) (s : SysState) :
    Except TunnelError String × SysState × List Action :=
  let name := name0.getD ("app-" ++ toString port)
  let method := if method0 == "" then recommended else method0
  if method == "tailscale" then
    start_tailscale_funnel tsEnv port name 443 s
  else if method == "cloudflare" || method == "cloudflare_named" then
    start_cloudflare_named nEnv port name s
  else if method == "cloudflare_quick" || method == "quick" then
    start_cloudflare_quick logUrl qpid port name s
  else
    (Except.error TunnelError.UnknownMethod, s, [])

/-
Concrete fixtures used by the witness and counterexample theorems.
-/

/-- The empty durable state. -/
def emptyState : SysState :=
  { store := [], configs := [], procs := [], funnels := [] }

/-- A Tailscale environment with a resolved hostname and a working funnel
command. -/
def tsEnv0 : TsEnv := { ts_host := some "mybox.tailnet.ts.net", funnelCmdOk := true }

/-- A fully healthy routed-launcher environment: machine dev, domain
example.com, tunnel resource dev already exists with id abc, credentials
present, yq available, no process serving yet, new pid 9. -/
def nEnv0 : NamedEnv :=
  { machine_name := "dev", domain := some "example.com",
    tunnel_name_override := none, tunnelExists := true, createOk := true,
    tunnelId := some "abc", routeDnsOk := true, credsPresent := true,
    yqAvailable := true, existingPid := none, newPid := 9,
    aliveAfterSettle := true }

/-- nEnv0 but the spawned process dies before the settle check. -/
def nEnvDead : NamedEnv := { nEnv0 with aliveAfterSettle := false }

/-- nEnv0 but the credentials file is absent. -/
def nEnvNoCreds : NamedEnv := { nEnv0 with credsPresent := false }

/-- nEnv0 but yq is not installed. -/
def nEnvNoYq : NamedEnv := { nEnv0 with yqAvailable := false }

/-- A quick-tunnel log whose URL is greppable from the third check on. -/
def logUrl1 : Nat → Option String :=
  fun i => if i == 2 then some "https://w.trycloudflare.com" else none

/-- A quick-tunnel log with the URL present immediately. -/
def logUrl0 : Nat → Option String :=
  fun _ => some "https://demo.trycloudflare.com"

/-- An existing routing config for tunnel dev: one other hostname plus the
catch-all 404 rule. -/
def cfgOther : ConfigYml :=
  { tunnel := "dev", credentials_file := "abc.json",
    ingress := [{ hostname := some "other-dev.example.com",
                  service := "http://localhost:4000" }, catchAll404] }

/-- State with cfgOther on disk and nothing else. -/
def stateC2 : SysState :=
  { store := [], configs := [("dev", cfgOther)], procs := [], funnels := [] }

/-- The record a routed start for web on port 3000 with pid 9 writes. -/
def namedRec : TunnelRecord :=
  { method := "cloudflare_named", name := "web", local_port := 3000,
    url := "https://web-dev.example.com",
    hostname := some "web-dev.example.com", tunnel_name := some "dev",
    pid := some 9 }

/-- A record whose method field is not one of the three backends. -/
def bogusRec : TunnelRecord :=
  { method := "bogus", name := "web", local_port := 3000, url := "https://x" }

/-- Config for dev containing the ingress rule for web plus another
hostname and the catch-all 404 rule. -/
def cfgWithWeb : ConfigYml :=
  { tunnel := "dev", credentials_file := "abc.json",
    ingress := [newIngressRule "web-dev.example.com" 3000,
                { hostname := some "other-dev.example.com",
                  service := "http://localhost:4000" },
                catchAll404] }

/-- State with a routed record for web, its config, and its serving
process. -/
def stateC4 : SysState :=
  { store := [("web", namedRec)], configs := [("dev", cfgWithWeb)],
    procs := [9], funnels := [] }

/-- State holding only the bogus-method record. -/
def stateC10 : SysState :=
  { store := [("web", bogusRec)], configs := [], procs := [], funnels := [] }

/-- A teardown environment where both teardown commands succeed. -/
def stopEnv0 : StopEnv := { funnelOffOk := true, killOk := true }

/-- The config the no-yq fallback writes over cfgOther for a routed start
of web on port 3000: only the new rule, no other hostname, no catch-all. -/
def rebuiltCfg : ConfigYml :=
  { tunnel := "dev", credentials_file := "abc.json",
    ingress := [newIngressRule "web-dev.example.com" 3000] }

theorem findFrom_spec (ssBusy lsofBusy : Nat → Bool) :
    ∀ fuel port,
      (∀ p, findFrom ssBusy lsofBusy port fuel = some p →
        port ≤ p ∧ p < port + fuel ∧ portFree ssBusy lsofBusy p = true ∧
        ∀ q, port ≤ q → q < p → portFree ssBusy lsofBusy q = false) ∧
      (findFrom ssBusy lsofBusy port fuel = none →
        ∀ p, port ≤ p → p < port + fuel → portFree ssBusy lsofBusy p = false) := by
  intro fuel
  induction fuel with
  | zero =>
    intro port
    refine ⟨fun p h => by simp [findFrom] at h, fun _ p h1 h2 => ?_⟩
    omega
  | succ n ih =>
    intro port
    constructor
    · intro p h
      by_cases hfree : portFree ssBusy lsofBusy port = true
      · simp [findFrom, hfree] at h
        subst h
        exact ⟨Nat.le_refl _, by omega, hfree, fun q hq1 hq2 => by omega⟩
      · simp [findFrom, hfree] at h
        obtain ⟨h1, h2, h3, h4⟩ := ((ih (port + 1)).1 p h)
        refine ⟨by omega, by omega, h3, fun q hq1 hq2 => ?_⟩
        by_cases hq : q = port
        · subst hq
          exact Bool.eq_false_iff.mpr hfree
        · exact h4 q (by omega) hq2
    · intro h p h1 h2
      by_cases hfree : portFree ssBusy lsofBusy port = true
      · simp [findFrom, hfree] at h
      · simp [findFrom, hfree] at h
        by_cases hp : p = port
        · subst hp
          exact Bool.eq_false_iff.mpr hfree
        · exact (ih (port + 1)).2 h p (by omega) (by omega)

/-- C5: find_available_port scans base, base+1, ... in order and returns
the first port in [base, base+100) that both probing mechanisms report
free at call time (exit 0, port printed); if all 100 ports are busy it
fails with NoPortAvailable, exit code 1 and no port printed. -/
theorem C5_find_available_port_first_free (ssBusy lsofBusy : Nat → Bool)
    (base : Nat) :
    (match cmd_find_port ssBusy lsofBusy base with
     | (Except.ok p, code) =>
        code = 0 ∧ base ≤ p ∧ p < base + 100 ∧
        ssBusy p = false ∧ lsofBusy p = false ∧
        ∀ q, base ≤ q → q < p → portFree ssBusy lsofBusy q = false
     | (Except.error e, code) =>
        e = TunnelError.NoPortAvailable ∧ code = 1 ∧
        ∀ p, base ≤ p → p < base + 100 → portFree ssBusy lsofBusy p = false) := by
  unfold cmd_find_port find_available_port
  cases hf : findFrom ssBusy lsofBusy base 100 with
  | none =>
    exact ⟨rfl, rfl, (findFrom_spec ssBusy lsofBusy 100 base).2 hf⟩
  | some p =>
    obtain ⟨h1, h2, h3, h4⟩ := (findFrom_spec ssBusy lsofBusy 100 base).1 p hf
    have hfree := h3
    unfold portFree at hfree
    refine ⟨rfl, h1, h2, ?_, ?_, h4⟩
    · cases hss : ssBusy p <;> simp [hss] at hfree ⊢
    · cases hls : lsofBusy p <;> simp [hls] at hfree ⊢

/-- C5 witness: a concrete probe pair where ports 3000 and 3001 are busy
and 3002 is the first free port. -/
theorem C5_witness :
    (match cmd_find_port (fun p => p == 3000) (fun p => p == 3001) 3000 with
     | (Except.ok p, code) =>
        code = 0 ∧ 3000 ≤ p ∧ p < 3000 + 100 ∧
        (fun p => p == 3000) p = false ∧ (fun p => p == 3001) p = false ∧
        ∀ q, 3000 ≤ q → q < p →
          portFree (fun p => p == 3000) (fun p => p == 3001) q = false
     | (Except.error e, code) =>
        e = TunnelError.NoPortAvailable ∧ code = 1 ∧
        ∀ p, 3000 ≤ p → p < 3000 + 100 →
          portFree (fun p => p == 3000) (fun p => p == 3001) p = false) :=
  C5_find_available_port_first_free (fun p => p == 3000) (fun p => p == 3001) 3000

theorem assocGet_assocDelete {α : Type} (l : List (String × α)) (k : String) :
    assocGet (assocDelete l k) k = none := by
  unfold assocGet assocDelete
  rw [Option.map_eq_none']
  rw [List.find?_eq_none]
  intro x hx hk
  have h2 := (List.mem_filter.mp hx).2
  rw [beq_iff_eq] at hk
  rw [bne_iff_ne] at h2
  exact h2 hk

theorem assocGet_assocSet {α : Type} (l : List (String × α)) (k : String)
    (v : α) : assocGet (assocSet l k v) k = some v := by
  unfold assocGet assocSet
  rw [List.find?_cons_of_pos]
  · rfl
  · exact beq_self_eq_true k

/-- Whatever branch stop_tunnel takes, afterwards there is no record under
this name: either there was none and nothing changed, or the record file
was removed. -/
theorem stop_tunnel_clears_name (env : StopEnv) (name : String) (s : SysState) :
    assocGet ((stop_tunnel env name s).2.1).store name = none := by
  unfold stop_tunnel
  cases h : assocGet s.store name with
  | none => exact h
  | some r => exact assocGet_assocDelete _ _

/-- C1: for every tunnel name and every backend method, a successful
start followed immediately by stop for the same name leaves zero
TunnelRecords for that name in the state store. -/
theorem C1_start_then_stop_no_record (tsEnv : TsEnv) (nEnv : NamedEnv)
    (logUrl : Nat → Option String) (qpid : Nat) (recommended method : String)
    (port : Nat) (name : String) (senv : StopEnv) (s s1 : SysState)
    (url : String) (tr : List Action)
    (_h : cmd_start tsEnv nEnv logUrl qpid recommended method port (some name) s
         = (Except.ok url, s1, tr)) :
    assocGet ((stop_tunnel senv name s1).2.1).store name = none :=
  stop_tunnel_clears_name senv name s1

/-- C1 witness: a concrete successful quick start for demo followed by
stop demo leaves no record named demo. -/
theorem C1_witness :
    assocGet ((stop_tunnel stopEnv0 "demo"
      (cmd_start tsEnv0 nEnv0 logUrl0 7 "" "cloudflare_quick" 3000
        (some "demo") emptyState).2.1).2.1).store "demo" = none :=
  C1_start_then_stop_no_record tsEnv0 nEnv0 logUrl0 7 "" "cloudflare_quick"
    3000 "demo" stopEnv0 emptyState _ "https://demo.trycloudflare.com" _ rfl

/-- C7: stop_all_tunnels clears every TunnelRecord and exits 0 regardless
of whether the funnel reset or the pkill succeeded. -/
theorem C7_stop_all_unconditional (funnelResetOk pkillOk : Bool)
    (s : SysState) :
    (stop_all_tunnels funnelResetOk pkillOk s).1 = 0 ∧
    (stop_all_tunnels funnelResetOk pkillOk s).2.1.store = [] :=
  ⟨rfl, rfl⟩

/-- C8: stop on a name with no record exits 0 and changes nothing. -/
theorem C8_stop_missing_is_noop (env : StopEnv) (name : String) (s : SysState)
    (h : assocGet s.store name = none) :
    stop_tunnel env name s = (0, s, []) := by
  unfold stop_tunnel
  rw [h]

/-- C8 witness: stopping the absent name ghost in the empty state. -/
theorem C8_witness : stop_tunnel stopEnv0 "ghost" emptyState = (0, emptyState, []) :=
  C8_stop_missing_is_noop stopEnv0 "ghost" emptyState rfl

/-- C10: a stored record whose method is not one of the three backends
gets no teardown action at all, yet stop still deletes the record file and
exits 0, leaving everything else unchanged. -/
theorem C10_unknown_method_still_deleted (env : StopEnv) (name : String)
    (s : SysState) (r : TunnelRecord) (h : assocGet s.store name = some r)
    (h1 : r.method ≠ "tailscale") (h2 : r.method ≠ "cloudflare_quick")
    (h3 : r.method ≠ "cloudflare_named") :
    stop_tunnel env name s =
      (0, { s with store := assocDelete s.store name }, []) ∧
    assocGet ((stop_tunnel env name s).2.1).store name = none := by
  refine ⟨?_, stop_tunnel_clears_name env name s⟩
  unfold stop_tunnel
  rw [h]
  simp [h1, h2, h3]

/-- C10 witness: a record with method bogus is deleted with no teardown. -/
theorem C10_witness :
    stop_tunnel stopEnv0 "web" stateC10 =
      (0, { stateC10 with store := assocDelete stateC10.store "web" }, []) ∧
    assocGet ((stop_tunnel stopEnv0 "web" stateC10).2.1).store "web" = none :=
  C10_unknown_method_still_deleted stopEnv0 "web" stateC10 bogusRec rfl
    (by decide) (by decide) (by decide)

theorem quickPollFrom_spec (logUrl : Nat → Option String) :
    ∀ fuel start,
      (∀ url, quickPollFrom logUrl start fuel = some url →
        ∃ i, start ≤ i ∧ i < start + fuel ∧ logUrl i = some url ∧
          ∀ j, start ≤ j → j < i → logUrl j = none) ∧
      (quickPollFrom logUrl start fuel = none →
        ∀ i, start ≤ i → i < start + fuel → logUrl i = none) := by
  intro fuel
  induction fuel with
  | zero =>
    intro start
    refine ⟨fun url h => by simp [quickPollFrom] at h, fun _ i h1 h2 => ?_⟩
    omega
  | succ n ih =>
    intro start
    constructor
    · intro url h
      cases hl : logUrl start with
      | some u =>
        simp [quickPollFrom, hl] at h
        exact ⟨start, Nat.le_refl _, by omega, by rw [hl, h],
               fun j hj1 hj2 => by omega⟩
      | none =>
        simp [quickPollFrom, hl] at h
        obtain ⟨i, h1, h2, h3, h4⟩ := (ih (start + 1)).1 url h
        refine ⟨i, by omega, by omega, h3, fun j hj1 hj2 => ?_⟩
        by_cases hj : j = start
        · rw [hj, hl]
        · exact h4 j (by omega) hj2
    · intro h i h1 h2
      cases hl : logUrl start with
      | some u => simp [quickPollFrom, hl] at h
      | none =>
        simp [quickPollFrom, hl] at h
        by_cases hi : i = start
        · rw [hi, hl]
        · exact (ih (start + 1)).2 h i (by omega) (by omega)

/-- C3: the quick launcher polls the log at most 30 times at one-second
intervals.  If some check finds a URL, the launcher returns the first URL
found, leaves the spawned process running and writes the TunnelRecord; if
all 30 checks fail, it kills the spawned process (the final state equals
the initial one: no orphan, no record) and fails with LaunchTimeout. -/
theorem C3_quick_poll_bound_and_cleanup (logUrl : Nat → Option String)
    (pid local_port : Nat) (name : String) (s : SysState) :
    (match start_cloudflare_quick logUrl pid local_port name s with
     | (Except.ok url, s1, tr) =>
        (∃ i, i < 30 ∧ logUrl i = some url ∧ ∀ j, j < i → logUrl j = none) ∧
        pid ∈ s1.procs ∧
        assocGet s1.store name = some (quickRecord name local_port url pid) ∧
        tr = [Action.spawn pid]
     | (Except.error e, s1, tr) =>
        e = TunnelError.LaunchTimeout ∧
        (∀ i, i < 30 → logUrl i = none) ∧
        s1 = s ∧
        tr = [Action.spawn pid, Action.killPid pid]) := by
  unfold start_cloudflare_quick
  cases hp : quickPollFrom logUrl 0 30 with
  | some url =>
    obtain ⟨i, h1, h2, h3, h4⟩ := (quickPollFrom_spec logUrl 30 0).1 url hp
    refine ⟨⟨i, by omega, h3, fun j hj => h4 j (Nat.zero_le j) hj⟩, ?_, ?_, rfl⟩
    · exact List.mem_cons_self pid s.procs
    · exact assocGet_assocSet s.store name (quickRecord name local_port url pid)
  | none =>
    refine ⟨rfl, fun i hi => (quickPollFrom_spec logUrl 30 0).2 hp i
      (Nat.zero_le i) (by omega), ?_, rfl⟩
    have he : (pid :: s.procs).erase pid = s.procs := List.erase_cons_head pid s.procs
    rw [he]

/-- C3 witness: with the URL greppable from the third check on, the quick
launcher succeeds with that URL, leaves pid 7 running and records demo. -/
theorem C3_witness :
    (match start_cloudflare_quick logUrl1 7 3000 "demo" emptyState with
     | (Except.ok url, s1, tr) =>
        (∃ i, i < 30 ∧ logUrl1 i = some url ∧ ∀ j, j < i → logUrl1 j = none) ∧
        7 ∈ s1.procs ∧
        assocGet s1.store "demo" = some (quickRecord "demo" 3000 url 7) ∧
        tr = [Action.spawn 7]
     | (Except.error e, s1, tr) =>
        e = TunnelError.LaunchTimeout ∧
        (∀ i, i < 30 → logUrl1 i = none) ∧
        s1 = emptyState ∧
        tr = [Action.spawn 7, Action.killPid 7]) :=
  C3_quick_poll_bound_and_cleanup logUrl1 7 3000 "demo" emptyState

/-- C2 (failing input): with an existing config for tunnel dev (holding
another hostname's rule and the catch-all 404) and yq unavailable, a
successful routed start for web rebuilds the config with ONLY the new
hostname rule: the other hostname's rule is dropped and the ingress list
is no longer terminated by the catch-all 404 rule, contradicting the
claimed invariant (the fresh-file branch and the yq branch do write the
catch-all, showing the intent). -/
theorem C2_no_yq_rebuild_drops_catchall :
    (start_cloudflare_named nEnvNoYq 3000 "web" stateC2).1 =
      Except.ok "https://web-dev.example.com" ∧
    assocGet (start_cloudflare_named nEnvNoYq 3000 "web" stateC2).2.1.configs
      "dev" = some rebuiltCfg ∧
    rebuiltCfg.ingress.getLast? ≠ some catchAll404 ∧
    catchAll404 ∉ rebuiltCfg.ingress := by
  refine ⟨rfl, rfl, by decide, by decide⟩

/-- C4 (failing input): stopping the routed tunnel web deletes its record
and exits 0, but the routing configuration is left completely untouched:
the ingress rule for web-dev.example.com is still present afterwards, even
though the code logs that it is removing it.  The frame part of the claim
(shared process and other hostnames untouched) does hold. -/
theorem C4_stop_named_leaves_ingress_rule :
    (stop_tunnel stopEnv0 "web" stateC4).1 = 0 ∧
    assocGet (stop_tunnel stopEnv0 "web" stateC4).2.1.store "web" = none ∧
    (stop_tunnel stopEnv0 "web" stateC4).2.1.configs = stateC4.configs ∧
    assocGet (stop_tunnel stopEnv0 "web" stateC4).2.1.configs "dev" =
      some cfgWithWeb ∧
    newIngressRule "web-dev.example.com" 3000 ∈ cfgWithWeb.ingress ∧
    (stop_tunnel stopEnv0 "web" stateC4).2.1.procs = stateC4.procs ∧
    (stop_tunnel stopEnv0 "web" stateC4).2.2 = [] := by
  refine ⟨rfl, ?_, rfl, rfl, ?_, rfl, rfl⟩
  · decide
  · decide

/-- On any failure of the overlay launcher the state store is untouched. -/
theorem start_tailscale_funnel_error_store (env : TsEnv) (p fp : Nat)
    (n : String) (s s1 : SysState) (e : TunnelError) (tr : List Action)
    (h : start_tailscale_funnel env p n fp s = (Except.error e, s1, tr)) :
    s1.store = s.store := by
  unfold start_tailscale_funnel at h
  cases hh : env.ts_host <;> rw [hh] at h
  case none =>
    simp only [Prod.mk.injEq] at h
    rw [← h.2.1]
  case some host =>
    by_cases hc : env.funnelCmdOk = true
    · simp [hc] at h
    · rw [Bool.not_eq_true] at hc
      simp only [hc, Bool.false_eq_true, if_false, Prod.mk.injEq] at h
      rw [← h.2.1]

/-- On any failure of the quick launcher the state store is untouched. -/
theorem start_cloudflare_quick_error_store (logUrl : Nat → Option String)
    (pid p : Nat) (n : String) (s s1 : SysState) (e : TunnelError)
    (tr : List Action)
    (h : start_cloudflare_quick logUrl pid p n s = (Except.error e, s1, tr)) :
    s1.store = s.store := by
  unfold start_cloudflare_quick at h
  cases hp : quickPollFrom logUrl 0 30 <;> rw [hp] at h
  case none =>
    simp only [Prod.mk.injEq] at h
    rw [← h.2.1]
  case some url => simp at h

/-- On any failure of the routed launcher the state store is untouched
(the routing config file and the process set may already have changed). -/
theorem start_cloudflare_named_error_store (env : NamedEnv) (p : Nat)
    (n : String) (s s1 : SysState) (e : TunnelError) (tr : List Action)
    (h : start_cloudflare_named env p n s = (Except.error e, s1, tr)) :
    s1.store = s.store := by
  unfold start_cloudflare_named at h
  repeat' split at h
  all_goals simp only [Prod.mk.injEq] at h
  all_goals first
    | exact Except.noConfusion h.1
    | rw [← h.2.1]

/-- C6 counterexample: a concrete routed start whose spawned process dies
before the settle check fails with LaunchFailed, yet the routing config
file has already been created: durable state of the subsystem DID change
on a failing start, refuting the claim as stated. -/
theorem C6_counterexample_config_changed_on_failure :
    (cmd_start tsEnv0 nEnvDead logUrl0 7 "" "cloudflare" 3000 (some "web")
      emptyState).1 = Except.error TunnelError.LaunchFailed ∧
    (cmd_start tsEnv0 nEnvDead logUrl0 7 "" "cloudflare" 3000 (some "web")
      emptyState).2.1.configs ≠ emptyState.configs :=
  ⟨rfl, by decide⟩

/-- C6 amended: when the dispatched launcher fails, no TunnelRecord is
created or modified (the state store is returned unchanged) and the
launcher's error is surfaced unchanged; durable state other than the
record store (the routing config file, the process set) may however have
changed already. -/
theorem C6_failed_start_preserves_records (tsEnv : TsEnv) (nEnv : NamedEnv)
    (logUrl : Nat → Option String) (qpid : Nat) (recommended method : String)
    (port : Nat) (name0 : Option String) (s s1 : SysState) (e : TunnelError)
    (tr : List Action)
    (h : cmd_start tsEnv nEnv logUrl qpid recommended method port name0 s
         = (Except.error e, s1, tr)) :
    s1.store = s.store := by
  simp only [cmd_start] at h
  repeat' split at h
  all_goals first
    | exact start_tailscale_funnel_error_store _ _ _ _ _ _ _ _ h
    | exact start_cloudflare_named_error_store _ _ _ _ _ _ _ h
    | exact start_cloudflare_quick_error_store _ _ _ _ _ _ _ _ h
    | (simp only [Prod.mk.injEq] at h; rw [← h.2.1])

/-- C6 witness: the failing routed start of the counterexample leaves the
(empty) record store unchanged. -/
theorem C6_witness :
    (cmd_start tsEnv0 nEnvDead logUrl0 7 "" "cloudflare" 3000 (some "web")
      emptyState).2.1.store = emptyState.store :=
  C6_failed_start_preserves_records tsEnv0 nEnvDead logUrl0 7 "" "cloudflare"
    3000 (some "web") emptyState _ TunnelError.LaunchFailed _ rfl

/-- C9 counterexample: with the credentials file absent (and all earlier
steps passing), the routed launcher fails with CredentialsMissing but its
action trace already contains the DNS-route attempt: the launcher did NOT
fail "without having attempted to create a DNS route" as claimed. -/
theorem C9_counterexample_dns_attempted :
    (start_cloudflare_named nEnvNoCreds 3000 "web" emptyState).1 =
      Except.error TunnelError.CredentialsMissing ∧
    Action.routeDns "dev" "web-dev.example.com" ∈
      (start_cloudflare_named nEnvNoCreds 3000 "web" emptyState).2.2 :=
  ⟨rfl, by decide⟩

/-- C9 amended: the DNS-route step is performed BEFORE the credentials
check.  Whenever the domain is set, the tunnel resource exists or is
created, the tunnel id resolves and the credentials file is absent, the
launcher fails with CredentialsMissing leaving the state unchanged, but
only after attempting to create the DNS route for the derived hostname. -/
theorem C9_creds_failure_after_dns_attempt (env : NamedEnv) (port : Nat)
    (name : String) (s : SysState) (domain tid : String)
    (hd : env.domain = some domain)
    (hc : env.tunnelExists = true ∨ env.createOk = true)
    (ht : env.tunnelId = some tid)
    (hcreds : env.credsPresent = false) :
    (start_cloudflare_named env port name s).1 =
      Except.error TunnelError.CredentialsMissing ∧
    (start_cloudflare_named env port name s).2.1 = s ∧
    Action.routeDns (env.tunnel_name_override.getD env.machine_name)
        (name ++ "-" ++ env.machine_name ++ "." ++ domain) ∈
      (start_cloudflare_named env port name s).2.2 := by
  have hck : (!env.tunnelExists && !env.createOk) = false := by
    rcases hc with hc | hc <;> simp [hc]
  simp [start_cloudflare_named, hd, ht, hcreds, hck, List.mem_append]

/-- C9 witness: the amended theorem applied to the concrete
no-credentials environment. -/
theorem C9_witness :
    (start_cloudflare_named nEnvNoCreds 3000 "web" emptyState).1 =
      Except.error TunnelError.CredentialsMissing ∧
    (start_cloudflare_named nEnvNoCreds 3000 "web" emptyState).2.1 =
      emptyState ∧
    Action.routeDns
        (nEnvNoCreds.tunnel_name_override.getD nEnvNoCreds.machine_name)
        ("web" ++ "-" ++ nEnvNoCreds.machine_name ++ "." ++ "example.com") ∈
      (start_cloudflare_named nEnvNoCreds 3000 "web" emptyState).2.2 :=
  C9_creds_failure_after_dns_attempt nEnvNoCreds 3000 "web" emptyState
    "example.com" "abc" rfl (Or.inl rfl) rfl rfl

end Tunnel
